import Mathlib

/-!
Shallow embedding of the concurrent fetch-and-aggregate pipeline of
`scripts/fetch_transcripts.py` and `scripts/generate_channel_titles.py`,
and of the Gemini decision logic of `scripts/filter_videos_with_gemini.py`
with `scripts/utils/gemini_client.py`.

External network services (pytubefix `YouTube`, `YouTubeTranscriptApi`,
the Gemini / OpenAI clients) are modeled as environment records of
functions returning `Except` (a call that raises a Python exception is a
`.error` result).  A worker's observable behaviour — its return value and
the log line it prints on the error path — is captured by a result
inductive whose constructors mirror the source's code paths.  The
bounded-concurrency dispatcher (`ThreadPoolExecutor` + `as_completed`)
delivers results in an arbitrary completion order: we model a run of the
pipeline as parameterised by that completion order, a permutation of the
submitted list.
-/

/-- Python `str.strip()`: drop whitespace from both ends, modeled over
the character list (core `String.trim` is byte-position based and is not
kernel-reducible, so the embedding uses this structural equivalent). -/
def pyStrip (s : String) : String :=
  ⟨((s.data.dropWhile Char.isWhitespace).reverse.dropWhile Char.isWhitespace).reverse⟩

/-- Python `str.upper()` (ASCII model): uppercase every character. -/
def pyUpper (s : String) : String :=
  ⟨s.data.map Char.toUpper⟩

/-- Python `s[:n]`: the first `n` characters. -/
def pyTake (s : String) (n : Nat) : String :=
  ⟨s.data.take n⟩

/-- Python exceptions that the workers distinguish: the two benign
transcript conditions `NoTranscriptFound` and `TranscriptsDisabled`
(from `youtube_transcript_api`), and any other exception, carried with
its message string. -/
inductive PyExc where
  | noTranscriptFound
  | transcriptsDisabled
  | other (msg : String)
deriving DecidableEq

/-- Environment of external calls made by `process_single_url`
(scripts/fetch_transcripts.py):
`videoId url` models `YouTube(url).video_id`,
`fetch vid` models `TRANSCRIPT_API.fetch(video_id)` returning the list of
snippet texts, and `title url` models `YouTube(url).title`.
Each call may raise (an `Except.error`). -/
structure FetchEnv where
  videoId : String → Except PyExc String
  fetch : String → Except PyExc (List String)
  title : String → Except PyExc String

/-- The success record built by `process_single_url`: the dict
`{"url": ..., "video_id": ..., "title": ..., "full_transcript": ...}`. -/
structure VideoData where
  url : String
  video_id : String
  title : String
  full_transcript : String
deriving DecidableEq

/-- The body of the `try:` block of `process_single_url`: the three
sequential client calls, then
`" ".join(snippet.text for snippet in transcript_list)` followed by
`.strip()`, packaged into the result dict.  The first raising call
aborts the block with its exception. -/
def processBody (env : FetchEnv) (url : String) : Except PyExc VideoData :=
  match env.videoId url with
  | .error e => .error e
  | .ok vid =>
    match env.fetch vid with
    | .error e => .error e
    | .ok transcript_list =>
      match env.title url with
      | .error e => .error e
      | .ok video_title =>
        .ok { url := url
              video_id := vid
              title := video_title
              full_transcript := pyStrip (String.intercalate " " transcript_list) }

/-- Observable outcome of one worker invocation: a success record, a
silent benign skip (`return None` from the
`except (NoTranscriptFound, TranscriptsDisabled)` clause, no log), or a
failure (`return None` from the `except Exception` clause, which first
prints the given error line). -/
inductive WorkResult where
  | success (rec : VideoData)
  | skipped
  | failed (log : String)
deriving DecidableEq

/-- The error line printed by `process_single_url` on an unexpected
exception: `f"  - ERROR: Failed to process URL {url}: {e}"`. -/
def errorLog (url msg : String) : String :=
  "  - ERROR: Failed to process URL " ++ url ++ ": " ++ msg

/-- Worker of scripts/fetch_transcripts.py: run the try-block body; the
two benign transcript exceptions are caught first and mapped to a silent
`None` (`skipped`); any other exception is caught by the
`except Exception` clause, which logs and returns `None` (`failed`). -/
def process_single_url (env : FetchEnv) (url : String) : WorkResult :=
  match processBody env url with
  | .ok rec => .success rec
  | .error .noTranscriptFound => .skipped
  | .error .transcriptsDisabled => .skipped
  | .error (.other m) => .failed (errorLog url m)

/-- The value the worker actually returns to the dispatcher
(`dict | None`): both skip and failure return `None`. -/
def WorkResult.ret : WorkResult → Option VideoData
  | .success rec => some rec
  | .skipped => none
  | .failed _ => none

/-- Whether the outcome is a success record. -/
def WorkResult.isSuccess : WorkResult → Bool
  | .success _ => true
  | .skipped => false
  | .failed _ => false

/-- Error lines printed by the worker: only the `failed` path prints. -/
def WorkResult.errorLogs : WorkResult → List String
  | .failed m => [m]
  | .success _ => []
  | .skipped => []

/-- The stream of `WorkResult`s surfaced by `as_completed`, one per
submitted URL, in completion order `order`. -/
def workResults (env : FetchEnv) (order : List String) : List WorkResult :=
  order.map (process_single_url env)

/-- Function `fetch_transcripts` (scripts/fetch_transcripts.py): submit one task
per URL, iterate completed futures in completion order `order`, and
append `result` to `all_videos_data` only when it is truthy
(`if result:`), i.e. only the success dicts. -/
def fetch_transcripts (env : FetchEnv) (order : List String) : List VideoData :=
  order.filterMap fun url => (process_single_url env url).ret

-- Basic inversion lemmas about the worker.

theorem process_single_url_success_iff (env : FetchEnv) (url : String) (rec : VideoData) :
    process_single_url env url = .success rec ↔ processBody env url = .ok rec := by
  unfold process_single_url
  cases h : processBody env url with
  | ok r => simp
  | error e => cases e <;> simp

theorem processBody_ok_url (env : FetchEnv) (url : String) (rec : VideoData)
    (h : processBody env url = .ok rec) : rec.url = url := by
  unfold processBody at h
  split at h
  · exact absurd h (by simp)
  · split at h
    · exact absurd h (by simp)
    · split at h
      · exact absurd h (by simp)
      · cases h
        rfl

theorem length_filterMap_eq_countP {α β : Type} (f : α → Option β) (l : List α) :
    (l.filterMap f).length = l.countP fun a => (f a).isSome := by
  induction l with
  | nil => rfl
  | cons a l ih =>
    cases h : f a <;>
      simp [List.filterMap_cons, List.countP_cons, h, ih]

theorem mem_fetch_transcripts_iff (env : FetchEnv) (order : List String) (rec : VideoData) :
    rec ∈ fetch_transcripts env order ↔
      ∃ url, url ∈ order ∧ process_single_url env url = .success rec := by
  unfold fetch_transcripts
  rw [List.mem_filterMap]
  constructor
  · rintro ⟨url, hmem, hret⟩
    refine ⟨url, hmem, ?_⟩
    cases h : process_single_url env url <;> rw [h] at hret <;>
      simp [WorkResult.ret] at hret
    rw [hret]
  · rintro ⟨url, hmem, hsucc⟩
    exact ⟨url, hmem, by rw [hsucc]; rfl⟩

/-!
Embedding of the per-channel variant, `process_single_video` in
scripts/generate_channel_titles.py.  The item is a dict with keys
`url`, `video_id`, `title` built by `get_channel_videos`; the worker
fetches a transcript, applies a length gate, and chains a
title-generation call (`generate_title` from scripts/generate_titles.py,
which itself catches every exception and returns `None` on error, hence
is modeled as returning `Option String`).
-/

/-- One entry of the video list built by `get_channel_videos`. -/
structure VideoInfo where
  url : String
  video_id : String
  title : String
deriving DecidableEq

/-- Environment of external calls made by `process_single_video`:
`fetch vid` models `TRANSCRIPT_API.fetch(video_id)` (snippet texts, may
raise), and `generate_title t` models `generate_title(t, temperature=0.3)`
whose Python implementation returns the generated title or `None`
(it catches its own exceptions internally). -/
structure ChannelEnv where
  fetch : String → Except PyExc (List String)
  generate_title : String → Option String

/-- The success record built by `process_single_video`. -/
structure ChannelVideoData where
  url : String
  video_id : String
  original_title : String
  recommended_title : String
  transcript_length : Nat
  transcript_preview : String
deriving DecidableEq

/-- Observable outcome of one `process_single_video` invocation, one
constructor per `return` site of the source:
`noTranscript` — the inner `except (NoTranscriptFound, TranscriptsDisabled)`
clause (prints "No transcript available", returns `None`);
`tooShort` — the `if not full_transcript or len(full_transcript) < 200`
gate (prints "Transcript too short", returns `None`);
`noTitle` — `generate_title` returned `None` (prints "Failed to generate
title", returns `None`);
`failed` — the outer `except Exception` clause (prints the given ERROR
line, returns `None`). -/
inductive VidResult where
  | success (rec : ChannelVideoData)
  | noTranscript
  | tooShort
  | noTitle
  | failed (log : String)
deriving DecidableEq

/-- The error line printed by the outer `except Exception` clause of
`process_single_video`: `f"  - ERROR processing {title}: {e}"`. -/
def channelErrorLog (title msg : String) : String :=
  "  - ERROR processing " ++ title ++ ": " ++ msg

/-- Worker of scripts/generate_channel_titles.py.  The inner try catches
only the two benign transcript exceptions; any other exception from the
fetch propagates to the outer `except Exception`.  On a fetched
transcript, the snippets are joined with `" ".join(...)` and `.strip()`ed;
an empty or shorter-than-200-character body is rejected; then
`generate_title` is called and a falsy result is rejected
(`if not recommended_title:` — both `None` and the empty string are
falsy in Python); otherwise the result dict is built (with
`transcript_preview` truncated at 200 characters plus `"..."` when
longer than 200). -/
def process_single_video (env : ChannelEnv) (v : VideoInfo) : VidResult :=
  match env.fetch v.video_id with
  | .error .noTranscriptFound => .noTranscript
  | .error .transcriptsDisabled => .noTranscript
  | .error (.other m) => .failed (channelErrorLog v.title m)
  | .ok transcript_list =>
    let full_transcript := pyStrip (String.intercalate " " transcript_list)
    if full_transcript = "" ∨ full_transcript.length < 200 then
      .tooShort
    else
      match env.generate_title full_transcript with
      | none => .noTitle
      | some recommended_title =>
        if recommended_title = "" then .noTitle
        else
        .success { url := v.url
                   video_id := v.video_id
                   original_title := v.title
                   recommended_title := recommended_title
                   transcript_length := full_transcript.length
                   transcript_preview :=
                     if full_transcript.length > 200 then
                       pyTake full_transcript 200 ++ "..."
                     else full_transcript }

/-- The value `process_single_video` returns to the dispatcher
(`dict | None`): every non-success path returns `None`. -/
def VidResult.ret : VidResult → Option ChannelVideoData
  | .success rec => some rec
  | .noTranscript => none
  | .tooShort => none
  | .noTitle => none
  | .failed _ => none

/-- Error lines printed by `process_single_video`: only the outer
`except Exception` clause prints an ERROR line (the benign-skip and
gate paths print informational lines, not errors). -/
def VidResult.errorLogs : VidResult → List String
  | .failed m => [m]
  | _ => []

/-- Result-collection loop of `process_channel_videos`
(scripts/generate_channel_titles.py): iterate completed futures in
completion order `order`, appending only truthy results. -/
def process_channel_videos (env : ChannelEnv) (order : List VideoInfo) : List ChannelVideoData :=
  order.filterMap fun v => (process_single_video env v).ret

/-!
Embedding of the Gemini video filter:
`get_text_response` from scripts/utils/gemini_client.py and
`should_keep_video` from scripts/filter_videos_with_gemini.py.
`model.generate_content(prompt)` is modeled as a function
`gen : String → Except String String` (a raised exception is an
`.error` carrying the exception's message). -/

/-- Python `pat in s` on strings: `pat` occurs as a contiguous substring
of `s`, decided over the character lists. -/
def strContains (s pat : String) : Bool :=
  decide (pat.data <:+: s.data)

/-- Python `s.startswith(pat)`. -/
def strStartsWith (s pat : String) : Bool :=
  decide (pat.data <+: s.data)

/-- Function `get_text_response` (scripts/utils/gemini_client.py): call the model
and return `response.text.strip()`; every exception is caught and an
`"ERROR: Gemini text call failed: ..."` string is returned instead of
raising. -/
def get_text_response (gen : String → Except String String) (prompt : String) : String :=
  match gen prompt with
  | .ok response => pyStrip response
  | .error e => "ERROR: Gemini text call failed: " ++ e

/-- The `FILTERING_CRITERIA` prompt constant of
scripts/filter_videos_with_gemini.py. -/
def FILTERING_CRITERIA : String :=
"
You are helping filter a YouTube dataset for training a high-CTR title generation model. 
Your task is to determine if a video should be KEPT or REMOVED based on the following criteria:

REMOVE these types of videos (contamination):
1. **Corporate Event/Ads**: Apple Events, Samsung Galaxy Unpacked, Microsoft Surface launches, etc.
   - These got high views because of Brand Power/News, not pure title skill
   - Examples: \"Apple Event — October 13, Introducing iPad Air\", \"Galaxy Unpacked\", \"Introducing Windows 11\"

2. **Pure Livestreams/Broadcasts**: SpaceX Starlink missions, NASA broadcasts, mission replays
   - These are highly searchable news bulletins that teach generic functional titles
   - Examples: \"Starlink Mission\", \"DART Impact\", \"Replay - New Shepard Mission NS-13 Webcast\"

3. **\"Deal Guy\" Content**: Amazon Prime Day deals, Black Friday deals, top X deals lists
   - This is pure listicle commerce, not educational content
   - Examples: \"Top 50 Amazon Prime Day Deals 2020 🤑\", \"Top 10 Target Black Friday Deals 2021\"

4. **Simple \"Official\" Videos**: Basic product announcements without curiosity/conflict
   - Examples: \"The new MacBook Pro\", \"Introducing Apple Vision Pro\"

 KEEP these types of videos (gold standard):
1. **Conflict/Controversy**: Titles that generate curiosity through debate or controversy
   - Examples: \"NVIDIA just made EVERYTHING ELSE obsolete\", \"iPhone vs Android - Which can survive a CAR? 🚗\"

2. **Absurdity/Engineering Feat**: Titles that highlight unusual or impressive engineering
   - Examples: \"I Invented Three New Incredible Ways to Die\", \"4000° PLASMA LIGHTSABER BUILD\"

3. **The Big Question/Hidden Truth**: Titles that pose interesting questions or reveal hidden insights
   - Examples: \"Is The Metric System Actually Better?\", \"How Humans Lost Their Fur\"

Respond with ONLY: \"KEEP\" or \"REMOVE\" followed by a brief reason (one sentence).
"

/-- The `tags_str` computed by `should_keep_video`:
`tags if tags and tags != \"[None]\" else \"No tags\"` (an empty string is
falsy in Python). -/
def tagsStr (tags : String) : String :=
  if tags ≠ "" ∧ tags ≠ "[None]" then tags else "No tags"

/-- The f-string prompt built by `should_keep_video`. -/
def filterPrompt (title channel_title tags : String) : String :=
  "\n    " ++ FILTERING_CRITERIA ++ "\n\n    Video Title: \"" ++ title ++
    "\"\n    Channel: " ++ channel_title ++ "\n    Tags: " ++ tagsStr tags ++
    "\n\n    Should this video be KEPT or REMOVED?\n    "

/-- Function `should_keep_video` (scripts/filter_videos_with_gemini.py): get the
model's text response, uppercase it, and decide:
if `\"REMOVE\" in response_upper or response_upper.startswith(\"REMOVE\")`,
return `(False, response)`; else if the same test for `\"KEEP\"` passes,
return `(True, response)`; otherwise return `(True, \"UNCLEAR: ...\")`.
The surrounding `try`/`except` of the source is vacuous here because
`get_text_response` already catches every exception and returns a
string. -/
def should_keep_video (gen : String → Except String String)
    (title channel_title tags : String) : Bool × String :=
  let response := get_text_response gen (filterPrompt title channel_title tags)
  let response_upper := pyUpper response
  if strContains response_upper "REMOVE" || strStartsWith response_upper "REMOVE" then
    (false, response)
  else if strContains response_upper "KEEP" || strStartsWith response_upper "KEEP" then
    (true, response)
  else
    (true, "UNCLEAR: " ++ response)

/-!
Concrete environments used to instantiate the theorems below.
-/

/-- Environment for the spec's end-to-end scenario: every URL `u`
resolves to id `"id" ++ u` with title `"title" ++ u`; URL B's video has
transcripts disabled; every other video has snippet texts
`["text", vid]`. -/
def envABC : FetchEnv where
  videoId := fun u => .ok ("id" ++ u)
  fetch := fun vid => if vid = "idB" then .error .transcriptsDisabled else .ok ["text", vid]
  title := fun u => .ok ("title" ++ u)

/-- The success record `envABC` produces for URL A. -/
def recA : VideoData :=
  { url := "A", video_id := "idA", title := "titleA", full_transcript := "text idA" }

/-- The success record `envABC` produces for URL C. -/
def recC : VideoData :=
  { url := "C", video_id := "idC", title := "titleC", full_transcript := "text idC" }

/-- Environment where URL "bad" raises an unexpected exception at
metadata resolution and every other URL fully succeeds. -/
def envMixed : FetchEnv where
  videoId := fun u => if u = "bad" then .error (.other "boom") else .ok ("id" ++ u)
  fetch := fun vid => .ok ["text", vid]
  title := fun u => .ok ("title" ++ u)

/-- Environment where every transcript fetch reports the benign
`NoTranscriptFound` condition. -/
def envNoTr : FetchEnv where
  videoId := fun u => .ok u
  fetch := fun _ => .error .noTranscriptFound
  title := fun u => .ok u

/-- Environment whose transcript fetch yields the spec's example
fragments `["Hello", "world"]`. -/
def envHello : FetchEnv where
  videoId := fun _ => .ok "vid1"
  fetch := fun _ => .ok ["Hello", "world"]
  title := fun _ => .ok "T"

/-- Channel environment with a successfully fetched but short transcript
and a title generator that always fails. -/
def chEnvShort : ChannelEnv where
  fetch := fun _ => .ok ["hi"]
  generate_title := fun _ => none

/-- A video-info item for instantiating the channel worker. -/
def vidInfo1 : VideoInfo :=
  { url := "u1", video_id := "v1", title := "t1" }

/-- A Gemini model stub that always raises. -/
def genBoom : String → Except String String := fun _ => .error "boom"

-- Further helper lemmas shared by the claim theorems.

theorem ret_isSome_eq_isSuccess (r : WorkResult) : r.ret.isSome = r.isSuccess := by
  cases r <;> rfl

theorem processBody_fetch_error (env : FetchEnv) (url vid : String) (e : PyExc)
    (hres : env.videoId url = .ok vid) (hf : env.fetch vid = .error e) :
    processBody env url = .error e := by
  simp [processBody, hres, hf]

theorem strStartsWith_imp_strContains (s pat : String)
    (h : strStartsWith s pat = true) : strContains s pat = true := by
  unfold strStartsWith at h
  unfold strContains
  exact decide_eq_true (of_decide_eq_true h).isInfix

/-- C1: for an identifier list of size N delivered in an arbitrary
completion order, the worker-result stream contains exactly one terminal
WorkResult per identifier (length N), and the aggregated ResultSet
length equals the number of Success results and is at most N. -/
theorem C1_one_result_per_identifier_output_counts_successes
    (env : FetchEnv) (urls order : List String) (h : order.Perm urls) :
    (workResults env order).length = urls.length ∧
    (fetch_transcripts env order).length
      = (workResults env order).countP (fun r => r.isSuccess) ∧
    (fetch_transcripts env order).length ≤ urls.length := by
  have hlen : order.length = urls.length := h.length_eq
  have hcount : (fetch_transcripts env order).length
      = (workResults env order).countP (fun r => r.isSuccess) := by
    unfold fetch_transcripts workResults
    rw [length_filterMap_eq_countP, List.countP_map]
    apply List.countP_congr
    intro a _
    simp [Function.comp, ret_isSome_eq_isSuccess]
  refine ⟨by simpa [workResults] using hlen, hcount, ?_⟩
  calc (fetch_transcripts env order).length
      = (workResults env order).countP (fun r => r.isSuccess) := hcount
    _ ≤ (workResults env order).length := List.countP_le_length _
    _ = urls.length := by simpa [workResults] using hlen

/-- C1 witness: the theorem instantiated at `envABC` on the identifier
list `["A", "B", "C"]` delivered in a swapped completion order. -/
theorem C1_witness :
    (fetch_transcripts envABC ["B", "A", "C"]).length ≤ (["A", "B", "C"] : List String).length :=
  (C1_one_result_per_identifier_output_counts_successes envABC ["A", "B", "C"]
    ["B", "A", "C"] (List.Perm.swap "A" "B" ["C"])).2.2

/-- C2: each worker, in both pipeline variants, yields exactly one of
the terminal outcomes (a success record, a benign skip, or a failure)
and converts every exception raised inside its body into a Skipped or
Failed outcome instead of raising. -/
theorem C2_worker_one_terminal_result_no_raise :
    (∀ env url, (∃ rec, process_single_url env url = .success rec) ∨
      process_single_url env url = .skipped ∨
      ∃ m, process_single_url env url = .failed m) ∧
    (∀ env url e, processBody env url = .error e →
      process_single_url env url = .skipped ∨
      ∃ m, process_single_url env url = .failed m) ∧
    (∀ env v, (∃ rec, process_single_video env v = .success rec) ∨
      (process_single_video env v).ret = none) ∧
    (∀ env v e, env.fetch v.video_id = .error e →
      process_single_video env v = .noTranscript ∨
      ∃ m, process_single_video env v = .failed m) := by
  refine ⟨?_, ?_, ?_, ?_⟩
  · intro env url
    cases h : processBody env url with
    | ok rec => exact .inl ⟨rec, by simp [process_single_url, h]⟩
    | error e =>
      cases e with
      | noTranscriptFound => exact .inr (.inl (by simp [process_single_url, h]))
      | transcriptsDisabled => exact .inr (.inl (by simp [process_single_url, h]))
      | other m => exact .inr (.inr ⟨errorLog url m, by simp [process_single_url, h]⟩)
  · intro env url e h
    cases e with
    | noTranscriptFound => exact .inl (by simp [process_single_url, h])
    | transcriptsDisabled => exact .inl (by simp [process_single_url, h])
    | other m => exact .inr ⟨errorLog url m, by simp [process_single_url, h]⟩
  · intro env v
    cases hr : process_single_video env v with
    | success rec => exact .inl ⟨rec, rfl⟩
    | noTranscript => exact .inr rfl
    | tooShort => exact .inr rfl
    | noTitle => exact .inr rfl
    | failed m => exact .inr rfl
  · intro env v e h
    cases e with
    | noTranscriptFound => exact .inl (by simp [process_single_video, h])
    | transcriptsDisabled => exact .inl (by simp [process_single_video, h])
    | other m => exact .inr ⟨channelErrorLog v.title m, by simp [process_single_video, h]⟩

/-- C2 witness: the exception-conversion conjunct applied at a concrete
environment whose transcript client raises `NoTranscriptFound`. -/
theorem C2_witness :
    process_single_url envNoTr "u" = .skipped ∨
    ∃ m, process_single_url envNoTr "u" = .failed m :=
  C2_worker_one_terminal_result_no_raise.2.1 envNoTr "u" .noTranscriptFound (by rfl)

/-- C3: a benign transcript condition (no transcript found, transcripts
disabled) makes the worker return the silent Skipped outcome (no error
log) and keeps the item out of every pipeline output, while any other
exception in the worker body yields Failed with an error line containing
the offending URL. -/
theorem C3_benign_skip_vs_logged_failure
    (env : FetchEnv) (url vid : String)
    (hres : env.videoId url = .ok vid)
    (hben : env.fetch vid = .error .noTranscriptFound ∨
      env.fetch vid = .error .transcriptsDisabled) :
    process_single_url env url = .skipped ∧
    (process_single_url env url).errorLogs = [] ∧
    (∀ order rec, rec ∈ fetch_transcripts env order → rec.url ≠ url) ∧
    (∀ envX urlX m, processBody envX urlX = .error (.other m) →
      process_single_url envX urlX = .failed (errorLog urlX m) ∧
      ∃ pre post, errorLog urlX m = pre ++ urlX ++ post) := by
  have hskip : process_single_url env url = .skipped := by
    rcases hben with hf | hf <;>
      simp [process_single_url, processBody_fetch_error env url vid _ hres hf]
  refine ⟨hskip, by rw [hskip]; rfl, ?_, ?_⟩
  · intro order rec hmem heq
    obtain ⟨u, hu, hsucc⟩ := (mem_fetch_transcripts_iff env order rec).mp hmem
    have hbody := (process_single_url_success_iff env u rec).mp hsucc
    have hurl : rec.url = u := processBody_ok_url env u rec hbody
    have huu : u = url := hurl.symm.trans heq
    rw [huu, hskip] at hsucc
    exact WorkResult.noConfusion hsucc
  · intro envX urlX m hm
    refine ⟨by simp [process_single_url, hm], ?_⟩
    exact ⟨"  - ERROR: Failed to process URL ", ": " ++ m,
      by simp [errorLog, String.append_assoc]⟩

/-- C3 witness: the theorem instantiated at a concrete environment whose
transcript client reports `NoTranscriptFound`. -/
theorem C3_witness :
    process_single_url envNoTr "w" = .skipped :=
  (C3_benign_skip_vs_logged_failure envNoTr "w" "w" rfl (Or.inl rfl)).1

/-- C4: when all three client calls succeed, the worker's combined text
body is the fragment texts joined in their given order with a single
space separator and stripped of surrounding whitespace; on the spec's
example fragments ["Hello", "world"] the body is exactly "Hello world". -/
theorem C4_single_space_join_then_strip
    (env : FetchEnv) (url vid t : String) (snips : List String)
    (h1 : env.videoId url = .ok vid) (h2 : env.fetch vid = .ok snips)
    (h3 : env.title url = .ok t) :
    process_single_url env url =
      .success { url := url, video_id := vid, title := t,
                 full_transcript := pyStrip (String.intercalate " " snips) } ∧
    pyStrip (String.intercalate " " ["Hello", "world"]) = "Hello world" := by
  constructor
  · simp [process_single_url, processBody, h1, h2, h3]
  · decide

/-- C4 witness: the worker on a fully succeeding environment whose
transcript fragments are the spec's example. -/
theorem C4_witness :
    process_single_url envHello "u" =
      .success { url := "u", video_id := "vid1", title := "T",
                 full_transcript := "Hello world" } :=
  ((C4_single_space_join_then_strip envHello "u" "vid1" "T" ["Hello", "world"]
    rfl rfl rfl).1).trans (by decide)

/-- C5: the aggregator's output contains exactly the Success payloads of
the completed workers; on the item source A, B, C where A and C have
transcripts and B's transcripts are disabled, the output has exactly the
two records for A and C, regardless of completion order. -/
theorem C5_success_payloads_only_ABC
    (env : FetchEnv) (order orderABC : List String)
    (h : orderABC.Perm ["A", "B", "C"]) :
    (∀ rec, rec ∈ fetch_transcripts env order ↔
      ∃ url, url ∈ order ∧ process_single_url env url = .success rec) ∧
    (fetch_transcripts envABC orderABC).Perm [recA, recC] := by
  refine ⟨fun rec => mem_fetch_transcripts_iff env order rec, ?_⟩
  have hp := h.filterMap fun url => (process_single_url envABC url).ret
  have hval : (["A", "B", "C"] : List String).filterMap
      (fun url => (process_single_url envABC url).ret) = [recA, recC] := by decide
  rw [hval] at hp
  exact hp

/-- C5 witness: the end-to-end scenario with completion order C, B, A. -/
theorem C5_witness :
    (fetch_transcripts envABC ["C", "B", "A"]).Perm [recA, recC] :=
  (C5_success_payloads_only_ABC envABC [] ["C", "B", "A"] (by decide)).2

/-- C6: one worker's Failed outcome does not prevent any other worker
from being processed (the result stream still has one entry per
submitted identifier) nor any sibling Success payload from appearing in
the output. -/
theorem C6_failure_isolation
    (env : FetchEnv) (order : List String) (bad m : String)
    (hbadmem : bad ∈ order)
    (hfail : process_single_url env bad = .failed m)
    (u : String) (rec : VideoData) (hu : u ∈ order)
    (hsucc : process_single_url env u = .success rec) :
    rec ∈ fetch_transcripts env order ∧
    (workResults env order).length = order.length :=
  ⟨(mem_fetch_transcripts_iff env order rec).mpr ⟨u, hu, hsucc⟩,
    by simp [workResults]⟩

/-- C6 witness: URL "bad" fails with an unexpected error, yet URL
"good"'s success record is in the output. -/
theorem C6_witness :
    ({ url := "good", video_id := "idgood", title := "titlegood",
       full_transcript := "text idgood" } : VideoData) ∈
      fetch_transcripts envMixed ["bad", "good"] :=
  (C6_failure_isolation envMixed ["bad", "good"] "bad" (errorLog "bad" "boom")
    (by decide) (by decide) "good" _ (by decide) (by decide)).1

/-- C7: with a fixed (deterministic) worker environment, two runs of the
pipeline over the same identifier set, each delivering results in its
own completion order, produce outputs with the same contents up to
order. -/
theorem C7_rerun_permutation_invariant
    (env : FetchEnv) (urls orderA orderB : List String)
    (hA : orderA.Perm urls) (hB : orderB.Perm urls) :
    (fetch_transcripts env orderA).Perm (fetch_transcripts env orderB) :=
  (hA.trans hB.symm).filterMap fun url => (process_single_url env url).ret

/-- C7 witness: two completion orders of the same concrete run. -/
theorem C7_witness :
    (fetch_transcripts envABC ["B", "A", "C"]).Perm
      (fetch_transcripts envABC ["A", "B", "C"]) :=
  C7_rerun_permutation_invariant envABC ["A", "B", "C"] ["B", "A", "C"]
    ["A", "B", "C"] (by decide) (by decide)

/-- C9: in the per-channel variant, even when the transcript fetch
succeeds, the worker returns the skip signal (`None`) whenever the
combined transcript body is empty or shorter than 200 characters, or
whenever title generation returns no title; a success record is
returned only when the body has length at least 200 and a (non-falsy)
title was generated — precisely, success holds exactly when the body
has length at least 200 and the generated title is `some t` with `t`
non-empty, since `if not recommended_title:` also rejects an empty
generated title. -/
theorem C9_transcript_length_and_title_gates
    (env : ChannelEnv) (v : VideoInfo) (snips : List String)
    (h : env.fetch v.video_id = .ok snips) :
    ((pyStrip (String.intercalate " " snips)).length < 200 ∨
        env.generate_title (pyStrip (String.intercalate " " snips)) = none →
      (process_single_video env v).ret = none) ∧
    (∀ rec, process_single_video env v = .success rec →
      200 ≤ (pyStrip (String.intercalate " " snips)).length ∧
        env.generate_title (pyStrip (String.intercalate " " snips)) =
          some rec.recommended_title ∧ rec.recommended_title ≠ "") ∧
    ((process_single_video env v).ret.isSome = true ↔
      200 ≤ (pyStrip (String.intercalate " " snips)).length ∧
        ∃ t, env.generate_title (pyStrip (String.intercalate " " snips)) = some t ∧
          t ≠ "") := by
  have hcond : (pyStrip (String.intercalate " " snips) = "" ∨
      (pyStrip (String.intercalate " " snips)).length < 200) ↔
      (pyStrip (String.intercalate " " snips)).length < 200 := by
    constructor
    · rintro (he | hl)
      · rw [he]
        decide
      · exact hl
    · exact Or.inr
  by_cases hlen : (pyStrip (String.intercalate " " snips)).length < 200
  · have hts : process_single_video env v = .tooShort := by
      simp only [process_single_video, h]
      rw [if_pos (hcond.mpr hlen)]
    refine ⟨fun _ => by rw [hts]; rfl, ?_, ?_⟩
    · intro rec hrec
      rw [hts] at hrec
      exact VidResult.noConfusion hrec
    · rw [hts]
      constructor
      · intro hs
        exact absurd hs (by decide)
      · rintro ⟨hge, _⟩
        omega
  · cases hg : env.generate_title (pyStrip (String.intercalate " " snips)) with
    | none =>
      have hnt : process_single_video env v = .noTitle := by
        simp only [process_single_video, h]
        rw [if_neg (fun hc => hlen (hcond.mp hc)), hg]
      refine ⟨fun _ => by rw [hnt]; rfl, ?_, ?_⟩
      · intro rec hrec
        rw [hnt] at hrec
        exact VidResult.noConfusion hrec
      · rw [hnt]
        constructor
        · intro hs
          exact absurd hs (by decide)
        · rintro ⟨_, t, hsome, _⟩
          exact Option.noConfusion hsome
    | some t =>
      by_cases hte : t = ""
      · have hnt : process_single_video env v = .noTitle := by
          simp only [process_single_video, h]
          rw [if_neg (fun hc => hlen (hcond.mp hc))]
          simp only [hg]
          rw [if_pos hte]
        refine ⟨fun _ => by rw [hnt]; rfl, ?_, ?_⟩
        · intro rec hrec
          rw [hnt] at hrec
          exact VidResult.noConfusion hrec
        · rw [hnt]
          constructor
          · intro hs
            exact absurd hs (by decide)
          · rintro ⟨_, t2, hsome, hne⟩
            injection hsome with h2
            exact absurd (h2.symm.trans hte) hne
      · have hsu : process_single_video env v =
            .success { url := v.url, video_id := v.video_id, original_title := v.title,
                       recommended_title := t,
                       transcript_length := (pyStrip (String.intercalate " " snips)).length,
                       transcript_preview :=
                         if (pyStrip (String.intercalate " " snips)).length > 200 then
                           pyTake (pyStrip (String.intercalate " " snips)) 200 ++ "..."
                         else pyStrip (String.intercalate " " snips) } := by
          simp only [process_single_video, h]
          rw [if_neg (fun hc => hlen (hcond.mp hc))]
          simp only [hg]
          rw [if_neg hte]
        refine ⟨?_, ?_, ?_⟩
        · rintro (hl | hn)
          · exact absurd hl hlen
          · exact Option.noConfusion hn
        · intro rec hrec
          rw [hsu] at hrec
          cases hrec
          exact ⟨Nat.le_of_not_lt hlen, rfl, hte⟩
        · rw [hsu]
          constructor
          · intro _
            exact ⟨Nat.le_of_not_lt hlen, t, rfl, hte⟩
          · intro _
            rfl

/-- C9 witness: a successfully fetched transcript of length 2 is below
the 200-character gate, so the worker returns the skip signal. -/
theorem C9_witness :
    (process_single_video chEnvShort vidInfo1).ret = none :=
  (C9_transcript_length_and_title_gates chEnvShort vidInfo1 ["hi"] rfl).1
    (Or.inl (by decide))

/-- C10: the Gemini filter decides keep = False exactly when the
uppercased response text contains "REMOVE" (so REMOVE wins over a
co-occurring KEEP), and keep = True in every other case; the underlying
text helper converts a raised client exception into an
"ERROR: Gemini text call failed: ..." string instead of raising, so on
a client failure whose text lacks "REMOVE" the video is kept. -/
theorem C10_remove_priority_and_keep_default
    (gen : String → Except String String) (title channel_title tags : String) :
    ((should_keep_video gen title channel_title tags).1 = false ↔
      strContains (pyUpper (get_text_response gen
        (filterPrompt title channel_title tags))) "REMOVE" = true) ∧
    (∀ prompt e, gen prompt = .error e →
      get_text_response gen prompt = "ERROR: Gemini text call failed: " ++ e) ∧
    (strContains (pyUpper (get_text_response gen
        (filterPrompt title channel_title tags))) "REMOVE" = false →
      (should_keep_video gen title channel_title tags).1 = true) := by
  have hiff : (should_keep_video gen title channel_title tags).1 = false ↔
      strContains (pyUpper (get_text_response gen
        (filterPrompt title channel_title tags))) "REMOVE" = true := by
    by_cases hR : strContains (pyUpper (get_text_response gen
        (filterPrompt title channel_title tags))) "REMOVE" = true
    · simp [should_keep_video, hR]
    · rw [Bool.not_eq_true] at hR
      have hP : strStartsWith (pyUpper (get_text_response gen
          (filterPrompt title channel_title tags))) "REMOVE" = false := by
        cases hP0 : strStartsWith (pyUpper (get_text_response gen
            (filterPrompt title channel_title tags))) "REMOVE"
        · rfl
        · rw [strStartsWith_imp_strContains _ _ hP0] at hR
          exact absurd hR (by decide)
      simp only [should_keep_video, hR, hP, Bool.or_self, Bool.false_eq_true, if_false,
        iff_false]
      split
      · simp
      · simp
  refine ⟨hiff, fun prompt e h => by simp [get_text_response, h], fun h0 => ?_⟩
  cases hx : (should_keep_video gen title channel_title tags).1
  · exact absurd (hiff.mp hx) (by simp [h0])
  · rfl

/-- C10 witness: a client that raises is converted to the error string
rather than an exception. -/
theorem C10_witness :
    get_text_response genBoom "p" = "ERROR: Gemini text call failed: boom" :=
  (C10_remove_priority_and_keep_default genBoom "t" "c" "g").2.1 "p" "boom" rfl

